import Mathlib

/-!
Verification of the BIN lookup bot's core helpers (`src/bot.py`, `src/config.py`):
the BIN format validator `validate_bin`, the lookup client `fetch_bin_info`, the
formatter `format_bin_info`, and the message handler `handle_message`.

The embedding models Python values that flow through these functions:

* JSON values (the parsed lookup record) as the inductive `Json`; Python's `None`
  and JSON `null` are one and the same runtime value in Python (`json` parses the
  body `null` to `None`), so both are `Json.null` here.
* Python truthiness (`if not bin_data`, `if bin_data.get("scheme")`) as `pyTruthy`.
* `dict.get(key)` (absent key gives `None`) as `pyGet`; `key in dict` together
  with `dict[key]` as `lookupVal` returning an `Option`.
* `re.fullmatch(r"\d{6}", s)`: the pattern is six repetitions of the class `\d`,
  which for `str` patterns matches the Unicode decimal digits (category Nd),
  not only ASCII `0-9`; `isPyDigit` carries the Nd code point ranges.
* `str.strip()` with no argument removes Python whitespace characters from both
  ends (`isPySpace` lists their code points).
* the HTTP interaction of `fetch_bin_info` as `HttpOutcome`: either a response
  with a status code and the outcome of parsing its body as JSON, or a raised
  transport exception (connection error, timeout, ...).  `r.json()` on an
  unparseable body raises, which the embedding keeps as the `Except.error` branch.
-/

/-- A JSON value as Python's `json` module materialises it.  JSON `null` is the
very object `None` in Python, so the `null` constructor stands for both.  Numbers
are kept as integers; no field of the BIN record carries a fractional number. -/
inductive Json where
  | null : Json
  | bool (b : Bool) : Json
  | num (n : Int) : Json
  | str (s : String) : Json
  | arr (elems : List Json) : Json
  | obj (fields : List (String × Json)) : Json

/-- Python truthiness of a JSON value: `None`, `False`, `0`, `""`, `[]` and
an empty dict are falsy, everything else is truthy. -/
def pyTruthy : Json → Bool
  | .null => false
  | .bool b => b
  | .num n => n != 0
  | .str s => !s.isEmpty
  | .arr elems => !elems.isEmpty
  | .obj fields => !fields.isEmpty

/-- First value bound to `key` in an association list (a Python dict has each
key at most once, so the first binding is the binding). -/
def assocLookup : List (String × Json) → String → Option Json
  | [], _ => none
  | (k, v) :: rest, key => if k == key then some v else assocLookup rest key

/-- `key in d` and `d[key]` folded into one observation: `some v` when the key
is present with value `v`, `none` when absent.  On a non-dict value lookups are
never reached by this program (the record reaching the formatter is a dict). -/
def lookupVal : Json → String → Option Json
  | .obj fields, key => assocLookup fields key
  | _, _ => none

/-- Python's `d.get(key)`: the bound value, or `None` when the key is absent. -/
def pyGet (j : Json) (key : String) : Json :=
  (lookupVal j key).getD Json.null

/-- Python's `str()` on the scalar JSON values that reach it in `format_bin_info`
(record fields are strings, booleans or null per the data model; containers never
reach `str()` on the formatted paths). -/
def pyStr : Json → String
  | .null => "None"
  | .bool true => "True"
  | .bool false => "False"
  | .num n => toString n
  | .str s => s
  | .arr _ => "[...]"
  | .obj _ => "{...}"

/-- Python's `str.upper()` for the ASCII letters the record fields carry. -/
def pyUpper (s : String) : String :=
  String.mk (s.data.map Char.toUpper)

/-- Python's `str.capitalize()`: first character uppercased, the rest
lowercased (ASCII, which covers the scheme/type/brand values). -/
def pyCapitalize (s : String) : String :=
  match s.data with
  | [] => ""
  | c :: cs => String.mk (Char.toUpper c :: cs.map Char.toLower)

/-- Code points of the characters `str.strip()` removes: Python strips its
whitespace set (ASCII whitespace, the C1 separators, NEL, NBSP and the Unicode
space separators). -/
def pySpaceCodes : List Nat :=
  [9, 10, 11, 12, 13, 28, 29, 30, 31, 32, 0x85, 0xA0, 0x1680,
   0x2000, 0x2001, 0x2002, 0x2003, 0x2004, 0x2005, 0x2006, 0x2007,
   0x2008, 0x2009, 0x200A, 0x2028, 0x2029, 0x202F, 0x205F, 0x3000]

/-- Whether `str.strip()` removes this character. -/
def isPySpace (c : Char) : Bool :=
  pySpaceCodes.contains c.toNat

/-- Python's `s.strip()`: drop whitespace from both ends. -/
def pyStrip (s : String) : String :=
  String.mk (((s.data.dropWhile isPySpace).reverse.dropWhile isPySpace).reverse)

/-- The code point ranges of Unicode general category Nd (decimal digits),
which is what `\d` matches in a Python `str` pattern (Unicode 15, as shipped
with current CPython). -/
def ndRanges : List (Nat × Nat) :=
  [(0x30, 0x39), (0x660, 0x669), (0x6F0, 0x6F9), (0x7C0, 0x7C9),
   (0x966, 0x96F), (0x9E6, 0x9EF), (0xA66, 0xA6F), (0xAE6, 0xAEF),
   (0xB66, 0xB6F), (0xBE6, 0xBEF), (0xC66, 0xC6F), (0xCE6, 0xCEF),
   (0xD66, 0xD6F), (0xDE6, 0xDEF), (0xE50, 0xE59), (0xED0, 0xED9),
   (0xF20, 0xF29), (0x1040, 0x1049), (0x1090, 0x1099), (0x17E0, 0x17E9),
   (0x1810, 0x1819), (0x1946, 0x194F), (0x19D0, 0x19D9), (0x1A80, 0x1A89),
   (0x1A90, 0x1A99), (0x1B50, 0x1B59), (0x1BB0, 0x1BB9), (0x1C40, 0x1C49),
   (0x1C50, 0x1C59), (0xA620, 0xA629), (0xA8D0, 0xA8D9), (0xA900, 0xA909),
   (0xA9D0, 0xA9D9), (0xA9F0, 0xA9F9), (0xAA50, 0xAA59), (0xABF0, 0xABF9),
   (0xFF10, 0xFF19), (0x104A0, 0x104A9), (0x10D30, 0x10D39),
   (0x11066, 0x1106F), (0x110F0, 0x110F9), (0x11136, 0x1113F),
   (0x111D0, 0x111D9), (0x112F0, 0x112F9), (0x11450, 0x11459),
   (0x114D0, 0x114D9), (0x11650, 0x11659), (0x116C0, 0x116C9),
   (0x11730, 0x11739), (0x118E0, 0x118E9), (0x11950, 0x11959),
   (0x11C50, 0x11C59), (0x11D50, 0x11D59), (0x11DA0, 0x11DA9),
   (0x11F50, 0x11F59), (0x16A60, 0x16A69), (0x16AC0, 0x16AC9),
   (0x16B50, 0x16B59), (0x1D7CE, 0x1D7FF), (0x1E140, 0x1E149),
   (0x1E2F0, 0x1E2F9), (0x1E4F0, 0x1E4F9), (0x1E950, 0x1E959),
   (0x1FBF0, 0x1FBF9)]

/-- Whether `\d` matches this character in a Python `str` pattern. -/
def isPyDigit (c : Char) : Bool :=
  ndRanges.any fun r => decide (r.1 ≤ c.toNat) && decide (c.toNat ≤ r.2)

/-- `re.fullmatch` of the pattern `\d` repeated `n` times against the whole
character list: exactly `n` characters, each matching `\d`. -/
def pyFullmatchDigits : Nat → List Char → Bool
  | 0, [] => true
  | 0, _ :: _ => false
  | _ + 1, [] => false
  | n + 1, c :: cs => isPyDigit c && pyFullmatchDigits n cs

/-- `validate_bin` of `src/bot.py`: `bool(re.fullmatch(r"\d{6}", bin_number or ""))`.
The argument is optional to cover `None`, which `or ""` turns into the empty
string before matching. -/
def validate_bin (bin_number : Option String) : Bool :=
  pyFullmatchDigits 6 (bin_number.getD "").data

/-- The spec's own description of the accepted language, written from its words
for comparison with `validate_bin`: exactly six ASCII decimal digits. -/
def isAsciiSixDigits (s : Option String) : Bool :=
  match s with
  | none => false
  | some t => t.length == 6 && t.data.all fun c => decide ('0' ≤ c) && decide (c ≤ '9')

/-- config.MESSAGES["no_data"] from `src/config.py`. -/
def MESSAGES_no_data : String :=
  "No information found for this BIN."

/-- config.MESSAGES["invalid_bin"] from `src/config.py` (two adjacent Python
string literals, concatenated). -/
def MESSAGES_invalid_bin : String :=
  "❌ Invalid BIN format. Please send 6 digits.\n\nExample: `464235`"

/-- The first line `format_bin_info` appends: the BIN header echoing the digits. -/
def binHeader (bin_number : String) : String :=
  "🔢 *BIN:* `" ++ bin_number ++ "`"

/-- The fixed note footer line of `format_bin_info`. -/
def noteLine : String :=
  "📝 *Note:* This shows card type only, not card validity."

/-- The fixed help footer line of `format_bin_info`. -/
def helpLine : String :=
  "ℹ️ Use `/help` for more information."

/-- The scheme block of `format_bin_info`: one brand line when
`bin_data.get("scheme")` is truthy, nothing otherwise. -/
def schemeLines (bin_data : Json) : List String :=
  if pyTruthy (pyGet bin_data "scheme") then
    ["🏦 *Brand:* " ++ pyUpper (pyStr (pyGet bin_data "scheme"))]
  else []

/-- The type block of `format_bin_info`. -/
def typeLines (bin_data : Json) : List String :=
  if pyTruthy (pyGet bin_data "type") then
    ["💳 *Type:* " ++ pyCapitalize (pyStr (pyGet bin_data "type"))]
  else []

/-- The bank block of `format_bin_info`: guarded by a truthy `bank` value, then
name, url and phone lines, each gated on its own truthiness.  (The source's
`bin_data["bank"] or ...` fallback to an empty dict cannot fire under the
truthy guard, so `bank` is the looked-up value itself.) -/
def bankLines (bin_data : Json) : List String :=
  if pyTruthy (pyGet bin_data "bank") then
    let bank := pyGet bin_data "bank"
    (if pyTruthy (pyGet bank "name") then ["🏛️ *Bank:* " ++ pyStr (pyGet bank "name")] else [])
    ++ (if pyTruthy (pyGet bank "url") then ["🌐 *Website:* " ++ pyStr (pyGet bank "url")] else [])
    ++ (if pyTruthy (pyGet bank "phone") then ["📞 *Phone:* " ++ pyStr (pyGet bank "phone")] else [])
  else []

/-- The `country_info` pieces of `format_bin_info`: name, emoji, and the
currency in parentheses, each present only when its field is truthy. -/
def countryInfo (country : Json) : List String :=
  (if pyTruthy (pyGet country "name") then [pyStr (pyGet country "name")] else [])
  ++ (if pyTruthy (pyGet country "emoji") then [pyStr (pyGet country "emoji")] else [])
  ++ (if pyTruthy (pyGet country "currency") then ["(" ++ pyStr (pyGet country "currency") ++ ")"] else [])

/-- The country block of `format_bin_info`: guarded by a truthy `country`
value, and appended only when `country_info` ended up non-empty. -/
def countryLines (bin_data : Json) : List String :=
  if pyTruthy (pyGet bin_data "country") then
    if (countryInfo (pyGet bin_data "country")).isEmpty then []
    else ["🌍 *Country:* " ++ " ".intercalate (countryInfo (pyGet bin_data "country"))]
  else []

/-- The level block of `format_bin_info` (the record's `brand` field). -/
def levelLines (bin_data : Json) : List String :=
  if pyTruthy (pyGet bin_data "brand") then
    ["⭐ *Level:* " ++ pyCapitalize (pyStr (pyGet bin_data "brand"))]
  else []

/-- The prepaid block of `format_bin_info`: `"prepaid" in bin_data and
bin_data["prepaid"] is not None`, then Yes/No by the value's truthiness. -/
def prepaidLines (bin_data : Json) : List String :=
  match lookupVal bin_data "prepaid" with
  | none => []
  | some Json.null => []
  | some v => ["💳 *Prepaid:* " ++ (if pyTruthy v then "Yes" else "No")]

/-- The ordered line list `format_bin_info` builds for a truthy record: header,
blank, the field blocks in the source's append order, blank, the two footers. -/
def format_lines (bin_data : Json) (bin_number : String) : List String :=
  [binHeader bin_number, ""]
  ++ schemeLines bin_data ++ typeLines bin_data ++ bankLines bin_data
  ++ countryLines bin_data ++ levelLines bin_data ++ prepaidLines bin_data
  ++ ["", noteLine, helpLine]

/-- `format_bin_info` of `src/bot.py`: the fixed no-data message for a falsy
`bin_data` (that covers `None` and the empty record), otherwise the line list
joined with newlines. -/
def format_bin_info (bin_data : Json) (bin_number : String) : String :=
  if pyTruthy bin_data then "\n".intercalate (format_lines bin_data bin_number)
  else MESSAGES_no_data

/-- The spec's tri-state outcome of a lookup (spec section 4.2). -/
inductive LookupOutcome where
  | found (record : Json) : LookupOutcome
  | notFound : LookupOutcome
  | failed (reason : String) : LookupOutcome

/-- The Python value `fetch_bin_info` hands its caller for each outcome: the
record itself for `Found`, and `None` for both `NotFound` and `Failed`. -/
def outcomeValue : LookupOutcome → Json
  | .found record => record
  | .notFound => Json.null
  | .failed _ => Json.null

/-- The formatter applied to a lookup outcome, through the value representation
the code uses for outcomes. -/
def formatReport (outcome : LookupOutcome) (bin_number : String) : String :=
  format_bin_info (outcomeValue outcome) bin_number

/-- One run of the HTTP interaction inside `fetch_bin_info`: either the `GET`
produced a response — a status code plus the result of parsing its body as
JSON (`r.json()` raises on an unparseable body, the error branch) — or the
transport raised (connection failure, timeout, ...). -/
inductive HttpOutcome where
  | response (status : Nat) (body : Except String Json) : HttpOutcome
  | exn (message : String) : HttpOutcome

/-- The `try` block of `fetch_bin_info`: `r.json()` for a 200 (propagating a
parse failure as a raised exception), `None` for a 404, and log-and-`None` for
every other status; a transport exception propagates. -/
def fetch_try : HttpOutcome → Except String Json
  | .exn message => .error message
  | .response status body =>
      if status = 200 then body
      else if status = 404 then .ok Json.null
      else .ok Json.null

/-- `fetch_bin_info` of `src/bot.py`: the `try` block under the catch-all
`except`, which logs and returns `None` for any raised exception. -/
def fetch_bin_info (h : HttpOutcome) : Json :=
  match fetch_try h with
  | .ok v => v
  | .error _ => Json.null

/-- Modelled from the spec: the outcome classification of section 4.2 —
HTTP 200 with a parseable JSON body is `Found(record)`, HTTP 404 is `NotFound`,
any other status, an unparseable 200 body or a transport exception is
`Failed(reason)`.  (The code itself returns plain values, `outcomeValue` of
this classification; the spec names the outcomes.) -/
def specLookupOutcome : HttpOutcome → LookupOutcome
  | .exn message => .failed message
  | .response status body =>
      if status = 200 then
        match body with
        | .ok record => .found record
        | .error e => .failed e
      else if status = 404 then .notFound
      else .failed ("HTTP status " ++ toString status)

/-- What the message handler does with one text update: the reply text it
sends, and the BIN it passed to the lookup client (`none` when the client was
never invoked).  Chat-transport affordances (typing action, reply keyboards,
parse mode) are outside the embedding. -/
structure HandlerResult where
  reply : String
  fetchedBin : Option String

/-- `handle_message` of `src/bot.py`, with the lookup client abstracted as the
oracle `fetch` (its value for a BIN is what `fetch_bin_info` returned): strip
the incoming text (`update.message.text` may be `None`), reject invalid BINs
with the fixed message, otherwise look up and reply with the no-data message
for a `None` result or with the formatted report. -/
def handle_message (text : Option String) (fetch : String → Json) : HandlerResult :=
  let t := pyStrip (text.getD "")
  if validate_bin (some t) = false then
    { reply := MESSAGES_invalid_bin, fetchedBin := none }
  else
    match fetch t with
    | Json.null => { reply := MESSAGES_no_data, fetchedBin := some t }
    | bin_data => { reply := format_bin_info bin_data t, fetchedBin := some t }

/-- A lookup record carrying every optional field of the data model. -/
def fullRecordKvs : List (String × Json) :=
  [("scheme", Json.str "visa"),
   ("type", Json.str "debit"),
   ("bank", Json.obj [("name", Json.str "Sample Bank"),
                      ("url", Json.str "https://example.com"),
                      ("phone", Json.str "+1 555-0100")]),
   ("country", Json.obj [("name", Json.str "United States"),
                         ("emoji", Json.str "🇺🇸"),
                         ("currency", Json.str "USD")]),
   ("brand", Json.str "classic"),
   ("prepaid", Json.bool false)]

/-- The same bindings as `fullRecordKvs` in a different key order. -/
def fullRecordPermutedKvs : List (String × Json) :=
  [("prepaid", Json.bool false),
   ("brand", Json.str "classic"),
   ("country", Json.obj [("name", Json.str "United States"),
                         ("emoji", Json.str "🇺🇸"),
                         ("currency", Json.str "USD")]),
   ("bank", Json.obj [("name", Json.str "Sample Bank"),
                      ("url", Json.str "https://example.com"),
                      ("phone", Json.str "+1 555-0100")]),
   ("type", Json.str "debit"),
   ("scheme", Json.str "visa")]

/-- The line list the full record must produce, in the fixed field order. -/
def fullRecordLines (bin_number : String) : List String :=
  [binHeader bin_number, "",
   "🏦 *Brand:* VISA",
   "💳 *Type:* Debit",
   "🏛️ *Bank:* Sample Bank",
   "🌐 *Website:* https://example.com",
   "📞 *Phone:* +1 555-0100",
   "🌍 *Country:* United States 🇺🇸 (USD)",
   "⭐ *Level:* Classic",
   "💳 *Prepaid:* No",
   "", noteLine, helpLine]

/-- A match of `n` repetitions of `\d` against the whole list means: exactly
`n` characters, all matching `\d`. -/
lemma pyFullmatchDigits_iff (cs : List Char) :
    ∀ n, pyFullmatchDigits n cs = true ↔ (cs.length = n ∧ cs.all isPyDigit = true) := by
  induction cs with
  | nil => intro n; cases n <;> simp [pyFullmatchDigits]
  | cons c cs ih =>
    intro n
    cases n with
    | zero => simp [pyFullmatchDigits]
    | succ n =>
      simp only [pyFullmatchDigits, Bool.and_eq_true, ih n, List.length_cons,
        List.all_cons, Nat.add_right_cancel_iff]
      tauto

/-- Claim C1, counterexample: `validate_bin` accepts the six Arabic-Indic
digits U+0660..U+0665 — a string that is not six ASCII decimal digits — because
`\d` in a Python `str` pattern matches every Unicode decimal digit.  So the
accepted language is strictly larger than the ASCII language the claim states. -/
theorem validate_bin_accepts_nonascii_digits :
    validate_bin (some "٠١٢٣٤٥") = true
    ∧ isAsciiSixDigits (some "٠١٢٣٤٥") = false := by
  decide

/-- Claim C1, amended: `validate_bin s` is true exactly when `s` is a string of
exactly 6 Unicode decimal digits (Python's `\d`); in particular it is false for
`None`, the empty string, any other length, and any character outside category
Nd — which includes all whitespace, signs and separators. -/
theorem validate_bin_spec :
    validate_bin none = false
    ∧ ∀ t : String, (validate_bin (some t) = true ↔ t.length = 6 ∧ t.data.all isPyDigit = true) := by
  refine ⟨by decide, fun t => ?_⟩
  have hv : validate_bin (some t) = pyFullmatchDigits 6 t.data := rfl
  have hl : t.length = t.data.length := rfl
  rw [hv, hl, pyFullmatchDigits_iff t.data 6]

/-- Claim C5: a `NotFound` outcome and a `Failed` outcome format to the same
fixed no-data text, byte for byte, whatever the BIN and the failure reason. -/
theorem formatReport_notFound_eq_failed :
    ∀ (bin_number reason : String),
      formatReport LookupOutcome.notFound bin_number
          = formatReport (LookupOutcome.failed reason) bin_number
        ∧ formatReport LookupOutcome.notFound bin_number = MESSAGES_no_data := by
  intro bin_number reason
  exact ⟨rfl, rfl⟩

/-- Claim C9: `format_bin_info` is deterministic — it depends on nothing but
its two arguments, so equal records and equal BIN strings give byte-identical
output on any two calls. -/
theorem format_bin_info_deterministic :
    ∀ (d₁ d₂ : Json) (b₁ b₂ : String), d₁ = d₂ → b₁ = b₂ →
      format_bin_info d₁ b₁ = format_bin_info d₂ b₂ := by
  intro d₁ d₂ b₁ b₂ hd hb
  rw [hd, hb]

/-- Claim C9, witness: two calls on the full sample record and the same BIN. -/
theorem format_bin_info_deterministic_witness :
    format_bin_info (Json.obj fullRecordKvs) "464235"
      = format_bin_info (Json.obj fullRecordKvs) "464235" :=
  format_bin_info_deterministic (Json.obj fullRecordKvs) (Json.obj fullRecordKvs)
    "464235" "464235" rfl rfl

/-- Claim C6: whatever the `try` block of `fetch_bin_info` raises — transport
error, timeout, unparseable 200 body — the catch-all hands the caller the
value `None` instead of propagating the exception. -/
theorem fetch_bin_info_catches_all :
    ∀ (h : HttpOutcome) (e : String),
      fetch_try h = Except.error e → fetch_bin_info h = Json.null := by
  intro h e he
  unfold fetch_bin_info
  rw [he]

/-- Claim C6, witness: a raised connection timeout is returned as `None`. -/
theorem fetch_bin_info_catches_all_witness :
    fetch_bin_info (HttpOutcome.exn "connection timed out") = Json.null :=
  fetch_bin_info_catches_all (HttpOutcome.exn "connection timed out")
    "connection timed out" rfl

/-- Claim C2, counterexample: a `Found` outcome whose record has no fields at
all does not produce the line-structured report — the empty dict is falsy in
Python, so `format_bin_info` returns the fixed no-data message, the very text
the claim reserves to `NotFound` and `Failed`. -/
theorem formatReport_empty_found_no_data :
    formatReport (LookupOutcome.found (Json.obj [])) "464235" = MESSAGES_no_data := rfl

/-- Claim C2, amended: for every `Found(record)` whose record has at least one
field, the report's first line is the BIN header and its last two lines are the
fixed note and help footers; a `Found` record with no fields at all collapses
to the same no-data message as `NotFound` and `Failed`. -/
theorem formatReport_found_nonempty_report :
    ∀ (kvs : List (String × Json)) (bin_number : String), kvs ≠ [] →
      (format_lines (Json.obj kvs) bin_number).head? = some (binHeader bin_number)
      ∧ (format_lines (Json.obj kvs) bin_number).reverse.take 2 = [helpLine, noteLine]
      ∧ formatReport (LookupOutcome.found (Json.obj kvs)) bin_number
          = "\n".intercalate (format_lines (Json.obj kvs) bin_number) := by
  intro kvs bin_number hne
  have htr : pyTruthy (Json.obj kvs) = true := by
    cases kvs with
    | nil => exact absurd rfl hne
    | cons a l => rfl
  refine ⟨rfl, ?_, ?_⟩
  · unfold format_lines
    rw [List.reverse_append]
    rfl
  · show format_bin_info (Json.obj kvs) bin_number = _
    simp only [format_bin_info, htr, eq_self_iff_true, if_true]

/-- Claim C2, witness: the one-field record renders a report whose first line
is the header and whose last two lines are the footers. -/
theorem formatReport_found_nonempty_report_witness :
    (format_lines (Json.obj [("scheme", Json.str "visa")]) "464235").head?
        = some (binHeader "464235")
    ∧ (format_lines (Json.obj [("scheme", Json.str "visa")]) "464235").reverse.take 2
        = [helpLine, noteLine]
    ∧ formatReport (LookupOutcome.found (Json.obj [("scheme", Json.str "visa")])) "464235"
        = "\n".intercalate (format_lines (Json.obj [("scheme", Json.str "visa")]) "464235") :=
  formatReport_found_nonempty_report [("scheme", Json.str "visa")] "464235" (by simp)

/-- Claim C3, counterexample: in the record whose `prepaid` key is present with
value `null`, the prepaid line is not rendered — the output is just header,
blank lines and footers — so inclusion is not gated by key presence alone. -/
theorem prepaid_null_key_present_no_line :
    lookupVal (Json.obj [("prepaid", Json.null)]) "prepaid" = some Json.null
    ∧ format_lines (Json.obj [("prepaid", Json.null)]) "464235"
        = [binHeader "464235", "", "", noteLine, helpLine] :=
  ⟨rfl, rfl⟩

/-- Claim C3, amended: the prepaid line is included exactly when the `prepaid`
key is present with a non-null value; the value's truthiness only chooses
between Yes and No (`false` renders No), and an absent key — or a present key
bound to `null` — renders no prepaid line. -/
theorem prepaidLines_spec :
    ∀ (kvs : List (String × Json)) (v : Json) (bin_number : String),
      (lookupVal (Json.obj kvs) "prepaid" = none → prepaidLines (Json.obj kvs) = [])
      ∧ (lookupVal (Json.obj kvs) "prepaid" = some Json.null → prepaidLines (Json.obj kvs) = [])
      ∧ (lookupVal (Json.obj kvs) "prepaid" = some v → v ≠ Json.null →
          prepaidLines (Json.obj kvs)
            = ["💳 *Prepaid:* " ++ (if pyTruthy v then "Yes" else "No")])
      ∧ format_lines (Json.obj kvs) bin_number
          = [binHeader bin_number, ""]
            ++ schemeLines (Json.obj kvs) ++ typeLines (Json.obj kvs)
            ++ bankLines (Json.obj kvs) ++ countryLines (Json.obj kvs)
            ++ levelLines (Json.obj kvs) ++ prepaidLines (Json.obj kvs)
            ++ ["", noteLine, helpLine] := by
  intro kvs v bin_number
  refine ⟨?_, ?_, ?_, rfl⟩
  · intro h; unfold prepaidLines; rw [h]
  · intro h; unfold prepaidLines; rw [h]
  · intro h hv
    unfold prepaidLines
    rw [h]
    cases v with
    | null => exact absurd rfl hv
    | bool b => rfl
    | num n => rfl
    | str s => rfl
    | arr elems => rfl
    | obj fields => rfl

/-- Claim C3, witness: `prepaid: false` renders the No line. -/
theorem prepaidLines_spec_witness :
    prepaidLines (Json.obj [("prepaid", Json.bool false)]) = ["💳 *Prepaid:* No"] :=
  (prepaidLines_spec [("prepaid", Json.bool false)] (Json.bool false) "464235").2.2.1
    rfl (fun h => Json.noConfusion h)

/-- The value `fetch_bin_info` returns is the code's representation of the
spec's outcome classification: the record for `Found`, `None` for the rest. -/
lemma fetch_refines_outcome :
    ∀ h : HttpOutcome, fetch_bin_info h = outcomeValue (specLookupOutcome h) := by
  intro h
  cases h with
  | exn message => rfl
  | response status body =>
    by_cases h200 : status = 200
    · subst h200
      cases body with
      | ok record => rfl
      | error e => rfl
    · by_cases h404 : status = 404
      · subst h404
        rfl
      · simp only [fetch_bin_info, fetch_try, specLookupOutcome,
          if_neg h200, if_neg h404]
        rfl

/-- Claim C4, counterexample: a 200 response whose body is the parseable JSON
`null` is a `Found` outcome by the spec's mapping, yet `fetch_bin_info` hands
the caller exactly the value it hands for a 404 — `Found` is not always
distinguishable from the other two outcomes. -/
theorem found_null_indistinguishable :
    specLookupOutcome (HttpOutcome.response 200 (Except.ok Json.null))
        = LookupOutcome.found Json.null
    ∧ specLookupOutcome (HttpOutcome.response 404 (Except.ok Json.null))
        = LookupOutcome.notFound
    ∧ fetch_bin_info (HttpOutcome.response 200 (Except.ok Json.null))
        = fetch_bin_info (HttpOutcome.response 404 (Except.ok Json.null)) :=
  ⟨rfl, rfl, rfl⟩

/-- Claim C4, amended: `fetch_bin_info` realises the spec's tri-state mapping
through return values — the parsed record for a 200, `None` for a 404, `None`
with a logged reason for every other status or exception — and a `Found`
outcome is distinguishable from `NotFound` and `Failed` by the caller whenever
its record is not JSON `null`. -/
theorem fetch_outcome_mapping :
    (∀ h : HttpOutcome, fetch_bin_info h = outcomeValue (specLookupOutcome h))
    ∧ ∀ (h₁ h₂ : HttpOutcome) (r : Json),
        specLookupOutcome h₁ = LookupOutcome.found r → r ≠ Json.null →
        (specLookupOutcome h₂ = LookupOutcome.notFound
          ∨ ∃ e, specLookupOutcome h₂ = LookupOutcome.failed e) →
        fetch_bin_info h₁ ≠ fetch_bin_info h₂ := by
  refine ⟨fetch_refines_outcome, ?_⟩
  intro h₁ h₂ r h1 hr h2
  have hv2 : outcomeValue (specLookupOutcome h₂) = Json.null := by
    rcases h2 with h | ⟨e, h⟩ <;> rw [h] <;> rfl
  rw [fetch_refines_outcome h₁, fetch_refines_outcome h₂, h1, hv2]
  exact hr

/-- Claim C4, witness: a 200 carrying the sample record is distinguishable
from a 404. -/
theorem fetch_outcome_mapping_witness :
    fetch_bin_info (HttpOutcome.response 200 (Except.ok (Json.obj fullRecordKvs)))
      ≠ fetch_bin_info (HttpOutcome.response 404 (Except.error "no body")) :=
  fetch_outcome_mapping.2 _ _ (Json.obj fullRecordKvs) rfl
    (fun h => Json.noConfusion h) (Or.inl rfl)

/-- Claim C7: any record whose lookups agree with the full sample record —
whatever the order of its keys — formats to the fixed 13-line report, with the
fields in the source's append order: header, blank, brand, type, bank name,
website, phone, country, level, prepaid, blank, note, help. -/
theorem format_full_record_fixed_order :
    ∀ (kvs : List (String × Json)) (bin_number : String),
      (∀ k : String, lookupVal (Json.obj kvs) k = lookupVal (Json.obj fullRecordKvs) k) →
      format_bin_info (Json.obj kvs) bin_number
        = "\n".intercalate (fullRecordLines bin_number) := by
  intro kvs bin_number h
  have hs : lookupVal (Json.obj kvs) "scheme" = some (Json.str "visa") := by rw [h]; rfl
  have ht : lookupVal (Json.obj kvs) "type" = some (Json.str "debit") := by rw [h]; rfl
  have hb : lookupVal (Json.obj kvs) "bank"
      = some (Json.obj [("name", Json.str "Sample Bank"),
                        ("url", Json.str "https://example.com"),
                        ("phone", Json.str "+1 555-0100")]) := by rw [h]; rfl
  have hc : lookupVal (Json.obj kvs) "country"
      = some (Json.obj [("name", Json.str "United States"),
                        ("emoji", Json.str "🇺🇸"),
                        ("currency", Json.str "USD")]) := by rw [h]; rfl
  have hl : lookupVal (Json.obj kvs) "brand" = some (Json.str "classic") := by rw [h]; rfl
  have hp : lookupVal (Json.obj kvs) "prepaid" = some (Json.bool false) := by rw [h]; rfl
  have hne : kvs ≠ [] := by
    intro e
    rw [e] at hs
    exact Option.noConfusion hs
  have htr : pyTruthy (Json.obj kvs) = true := by
    cases kvs with
    | nil => exact absurd rfl hne
    | cons a l => rfl
  have e1 : schemeLines (Json.obj kvs) = ["🏦 *Brand:* VISA"] := by
    simp only [schemeLines, pyGet, hs]
    rfl
  have e2 : typeLines (Json.obj kvs) = ["💳 *Type:* Debit"] := by
    simp only [typeLines, pyGet, ht]
    rfl
  have e3 : bankLines (Json.obj kvs)
      = ["🏛️ *Bank:* Sample Bank", "🌐 *Website:* https://example.com",
         "📞 *Phone:* +1 555-0100"] := by
    simp only [bankLines, pyGet, hb]
    rfl
  have e4 : countryLines (Json.obj kvs) = ["🌍 *Country:* United States 🇺🇸 (USD)"] := by
    simp only [countryLines, countryInfo, pyGet, hc]
    rfl
  have e5 : levelLines (Json.obj kvs) = ["⭐ *Level:* Classic"] := by
    simp only [levelLines, pyGet, hl]
    rfl
  have e6 : prepaidLines (Json.obj kvs) = ["💳 *Prepaid:* No"] := by
    simp only [prepaidLines, hp]
    rfl
  have hfl : format_lines (Json.obj kvs) bin_number = fullRecordLines bin_number := by
    unfold format_lines fullRecordLines
    rw [e1, e2, e3, e4, e5, e6]
    rfl
  show format_bin_info (Json.obj kvs) bin_number = _
  simp only [format_bin_info, htr, eq_self_iff_true, if_true, hfl]

/-- Claim C7, witness: the permuted full record — same bindings, different key
order — produces the very same fixed-order report. -/
theorem format_full_record_fixed_order_witness :
    format_bin_info (Json.obj fullRecordPermutedKvs) "464235"
      = "\n".intercalate (fullRecordLines "464235") :=
  format_full_record_fixed_order fullRecordPermutedKvs "464235" (by
    intro k
    rcases eq_or_ne k "scheme" with h | h1
    · subst h; rfl
    rcases eq_or_ne k "type" with h | h2
    · subst h; rfl
    rcases eq_or_ne k "bank" with h | h3
    · subst h; rfl
    rcases eq_or_ne k "country" with h | h4
    · subst h; rfl
    rcases eq_or_ne k "brand" with h | h5
    · subst h; rfl
    rcases eq_or_ne k "prepaid" with h | h6
    · subst h; rfl
    simp [lookupVal, assocLookup, fullRecordKvs, fullRecordPermutedKvs,
      beq_iff_eq, Ne.symm h1, Ne.symm h2, Ne.symm h3, Ne.symm h4,
      Ne.symm h5, Ne.symm h6])

/-- Claim C8: whenever the stripped input fails validation, the handler replies
with the fixed invalid-format message and never invokes the lookup client,
whatever that client would have answered. -/
theorem invalid_input_no_lookup :
    ∀ (text : Option String) (fetch : String → Json),
      validate_bin (some (pyStrip (text.getD ""))) = false →
      handle_message text fetch
        = { reply := MESSAGES_invalid_bin, fetchedBin := none } := by
  intro text fetch h
  simp only [handle_message]
  rw [if_pos h]

/-- Claim C8, witness: the five-digit input is rejected without a lookup. -/
theorem invalid_input_no_lookup_witness :
    handle_message (some "12345") (fun _ => Json.null)
      = { reply := MESSAGES_invalid_bin, fetchedBin := none } :=
  invalid_input_no_lookup (some "12345") (fun _ => Json.null) (by decide)

/-- Claim C10: the handler strips the incoming text before validating, so a
valid BIN surrounded by whitespace — which `validate_bin` itself rejects — is
accepted and passed, stripped, to the lookup client. -/
theorem handler_strips_before_validating :
    validate_bin (some " 464235 ") = false
    ∧ pyStrip " 464235 " = "464235"
    ∧ ∀ (text : String) (fetch : String → Json),
        validate_bin (some (pyStrip text)) = true →
        (handle_message (some text) fetch).fetchedBin = some (pyStrip text) := by
  refine ⟨by decide, by decide, ?_⟩
  intro text fetch h
  simp only [handle_message, Option.getD_some]
  rw [if_neg (by simp [h])]
  cases hfv : fetch (pyStrip text) <;> rfl

/-- Claim C10, witness: the padded input " 464235 " is looked up as "464235". -/
theorem handler_strips_before_validating_witness :
    (handle_message (some " 464235 ") (fun _ => Json.obj fullRecordKvs)).fetchedBin
      = some "464235" :=
  handler_strips_before_validating.2.2 " 464235 " (fun _ => Json.obj fullRecordKvs)
    (by decide)
